import Mathlib

/-!
Verification development for the resilience core of the api-backend gateway.

Shallow embedding of the traffic-control components:
* `src/middleware/circuit_breaker.rs` — per-service circuit breaker registry
* `src/middleware/cache.rs`           — TTL response cache with capacity eviction
* `src/middleware/rate_limit.rs`      — Redis-backed sliding-window rate limiter
* `src/middleware/zero_trust.rs`      — request-freshness (timestamp) validation
* `src/middleware/auth.rs`            — bearer/api-key identity resolution
* `src/kafka/producer.rs`             — event publisher with retry/backoff and breaker

Time is passed explicitly (epoch milliseconds or seconds as in the source);
the concurrent maps (`DashMap`) are modelled as association lists, and the
atomics as plain record fields updated by the state-passing operations.
-/

/-! ## Circuit breaker registry (`src/middleware/circuit_breaker.rs`) -/

/-- Circuit breaker states (`CircuitState` in the source). -/
inductive CircuitState where
  | Closed
  | Open
  | HalfOpen
deriving DecidableEq, Repr

/-- `CircuitBreakerConfig`: `open_duration` is kept in milliseconds, matching
`open_duration.as_millis()` at the use site. -/
structure CircuitBreakerConfig where
  failure_threshold : Nat
  open_duration_ms : Nat
  half_open_successes : Nat
deriving DecidableEq, Repr

/-- Per-service breaker state; `opened_at` is epoch millis, `0` meaning closed. -/
structure BreakerState where
  consecutive_failures : Nat
  consecutive_successes : Nat
  opened_at : Nat
  half_open_probes : Nat
deriving DecidableEq, Repr

/-- `BreakerState::new` — all counters zero, not open. -/
def BreakerState.new : BreakerState :=
  { consecutive_failures := 0
    consecutive_successes := 0
    opened_at := 0
    half_open_probes := 0 }

/-- The `DashMap<String, BreakerState>` modelled as an association list. -/
def lookupBreaker : List (String × BreakerState) → String → Option BreakerState
  | [], _ => none
  | (k, v) :: t, s => if k = s then some v else lookupBreaker t s

/-- Replace the entry for a key, or add it when absent (map update semantics). -/
def setBreaker : List (String × BreakerState) → String → BreakerState → List (String × BreakerState)
  | [], s, b => [(s, b)]
  | (k, v) :: t, s, b => if k = s then (s, b) :: t else (k, v) :: setBreaker t s b

/-- `CircuitBreakerRegistry`: breaker map plus configuration. -/
structure CircuitBreakerRegistry where
  breakers : List (String × BreakerState)
  config : CircuitBreakerConfig
deriving DecidableEq, Repr

namespace CircuitBreakerRegistry

/-- `get_or_create`: return the breaker for a service, inserting the default
entry when the service has never been referenced. -/
def get_or_create (reg : CircuitBreakerRegistry) (service : String) :
    BreakerState × CircuitBreakerRegistry :=
  match lookupBreaker reg.breakers service with
  | some b => (b, reg)
  | none =>
    (BreakerState.new,
     { reg with breakers := setBreaker reg.breakers service BreakerState.new })

/-- `state`: `Closed` when never opened; once opened, `HalfOpen` after
`open_duration` has elapsed, else `Open`.  (The source's `get_or_create`
also inserts the default entry; the inserted default is observationally
equal to an absent entry, and the insertion itself is `get_or_create`.) -/
def state (reg : CircuitBreakerRegistry) (service : String) (now : Nat) : CircuitState :=
  let b := (reg.get_or_create service).1
  if b.opened_at = 0 then CircuitState.Closed
  else if reg.config.open_duration_ms ≤ now - b.opened_at then CircuitState.HalfOpen
  else CircuitState.Open

/-- `allow_request`: allowed when `Closed`; blocked when `Open`; in `HalfOpen`
a `fetch_add` on the probe counter admits the first `half_open_successes + 1`
probes. -/
def allow_request (reg : CircuitBreakerRegistry) (service : String) (now : Nat) :
    Bool × CircuitBreakerRegistry :=
  match reg.state service now with
  | CircuitState.Closed => (true, reg)
  | CircuitState.Open => (false, reg)
  | CircuitState.HalfOpen =>
    let b := (reg.get_or_create service).1
    let reg1 := (reg.get_or_create service).2
    let probes := b.half_open_probes
    let b1 : BreakerState := { b with half_open_probes := probes + 1 }
    (decide (probes < reg.config.half_open_successes + 1),
     { reg1 with breakers := setBreaker reg1.breakers service b1 })

/-- `record_success`: reset the failure counter, bump the success counter and,
when the breaker is open/half-open and enough successes have accumulated,
close it and reset the counters. -/
def record_success (reg : CircuitBreakerRegistry) (service : String) :
    CircuitBreakerRegistry :=
  let b := (reg.get_or_create service).1
  let reg1 := (reg.get_or_create service).2
  let b1 := { b with consecutive_failures := 0
                     consecutive_successes := b.consecutive_successes + 1 }
  let b2 :=
    if 0 < b1.opened_at then
      if reg.config.half_open_successes ≤ b1.consecutive_successes then
        { b1 with opened_at := 0, consecutive_successes := 0, half_open_probes := 0 }
      else b1
    else b1
  { reg1 with breakers := setBreaker reg1.breakers service b2 }

/-- `record_failure`: reset the success counter, bump the failure counter and,
once the failure counter reaches the threshold, (re-)open the breaker with a
fresh timestamp and a reset probe counter.  (The source's two branches on
`opened == 0` perform the same stores.) -/
def record_failure (reg : CircuitBreakerRegistry) (service : String) (now : Nat) :
    CircuitBreakerRegistry :=
  let b := (reg.get_or_create service).1
  let reg1 := (reg.get_or_create service).2
  let b1 := { b with consecutive_successes := 0
                     consecutive_failures := b.consecutive_failures + 1 }
  let b2 :=
    if reg.config.failure_threshold ≤ b1.consecutive_failures then
      { b1 with opened_at := now, half_open_probes := 0 }
    else b1
  { reg1 with breakers := setBreaker reg1.breakers service b2 }

/-- `metrics`: current state plus the two consecutive counters. -/
def metrics (reg : CircuitBreakerRegistry) (service : String) (now : Nat) :
    CircuitState × Nat × Nat :=
  let b := (reg.get_or_create service).1
  (reg.state service now, b.consecutive_failures, b.consecutive_successes)

/-- A sequence of `record_failure` calls at the given times (in list order),
with no intervening `record_success`. -/
def record_failures (reg : CircuitBreakerRegistry) (service : String) :
    List Nat → CircuitBreakerRegistry
  | [] => reg
  | t :: ts => record_failures (record_failure reg service t) service ts

end CircuitBreakerRegistry

theorem lookupBreaker_setBreaker_same (l : List (String × BreakerState))
    (s : String) (b : BreakerState) :
    lookupBreaker (setBreaker l s b) s = some b := by
  induction l with
  | nil => simp [setBreaker, lookupBreaker]
  | cons hd t ih =>
    by_cases h : hd.1 = s
    · simp [setBreaker, lookupBreaker, h]
    · simp [setBreaker, lookupBreaker, h, ih]

namespace CircuitBreakerRegistry

theorem record_failure_config (reg : CircuitBreakerRegistry) (service : String)
    (now : Nat) : (reg.record_failure service now).config = reg.config := by
  unfold record_failure get_or_create
  cases lookupBreaker reg.breakers service <;> simp

theorem record_failure_lookup (reg : CircuitBreakerRegistry) (service : String)
    (now : Nat) (b : BreakerState)
    (h : lookupBreaker reg.breakers service = some b ∨
      (lookupBreaker reg.breakers service = none ∧ b = BreakerState.new)) :
    lookupBreaker (reg.record_failure service now).breakers service =
      some (if reg.config.failure_threshold ≤ b.consecutive_failures + 1 then
        { b with consecutive_successes := 0
                 consecutive_failures := b.consecutive_failures + 1
                 opened_at := now, half_open_probes := 0 }
      else
        { b with consecutive_successes := 0
                 consecutive_failures := b.consecutive_failures + 1 }) := by
  rcases h with h | ⟨h, rfl⟩ <;>
    simp [record_failure, get_or_create, h, lookupBreaker_setBreaker_same]

/-- After `k` failures short of the threshold, starting from the default
breaker state, the breaker has `k` consecutive failures and is still closed. -/
theorem record_failures_below (cfg : CircuitBreakerConfig) (service : String) :
    ∀ (ts : List Nat) (reg : CircuitBreakerRegistry) (k : Nat),
    reg.config = cfg →
    (lookupBreaker reg.breakers service =
        some { consecutive_failures := k, consecutive_successes := 0,
               opened_at := 0, half_open_probes := 0 } ∨
      (lookupBreaker reg.breakers service = none ∧ k = 0)) →
    k + ts.length < cfg.failure_threshold →
    (reg.record_failures service ts).config = cfg ∧
    (lookupBreaker (reg.record_failures service ts).breakers service =
      some { consecutive_failures := k + ts.length, consecutive_successes := 0,
             opened_at := 0, half_open_probes := 0 } ∨
      (lookupBreaker (reg.record_failures service ts).breakers service = none ∧
        k + ts.length = 0)) := by
  intro ts
  induction ts with
  | nil =>
    intro reg k hcfg hlk hlt
    rcases hlk with hlk | ⟨hlk, rfl⟩
    · exact ⟨hcfg, Or.inl (by simpa [record_failures] using hlk)⟩
    · exact ⟨hcfg, Or.inr (by simpa [record_failures] using hlk)⟩
  | cons t ts ih =>
    intro reg k hcfg hlk hlt
    have hstep := record_failure_lookup reg service t
      { consecutive_failures := k, consecutive_successes := 0,
        opened_at := 0, half_open_probes := 0 }
      (by
        rcases hlk with hlk | ⟨hlk, rfl⟩
        · exact Or.inl hlk
        · exact Or.inr ⟨hlk, rfl⟩)
    rw [if_neg (by simp [hcfg]; simp at hlt; omega)] at hstep
    have := ih (reg.record_failure service t) (k + 1)
      (by rw [record_failure_config, hcfg])
      (Or.inl (by simpa using hstep))
      (by simp at hlt ⊢; omega)
    simpa [record_failures, Nat.add_assoc, Nat.add_comm 1 ts.length] using this

theorem state_eq_of_lookup (reg : CircuitBreakerRegistry) (service : String)
    (now : Nat) (b : BreakerState)
    (hlk : lookupBreaker reg.breakers service = some b) :
    reg.state service now =
      (if b.opened_at = 0 then CircuitState.Closed
       else if reg.config.open_duration_ms ≤ now - b.opened_at then CircuitState.HalfOpen
       else CircuitState.Open) := by
  simp [state, get_or_create, hlk]

end CircuitBreakerRegistry

open CircuitBreakerRegistry in
/-- C1: Starting from the Closed (default, never-referenced) state, after
exactly `failure_threshold` consecutive `record_failure` calls with no
intervening `record_success` — the last one at time `t` — the breaker state
is `Open` and `allow_request` returns `false`, and it keeps doing so at every
instant until `open_duration` has elapsed since the transition. -/
theorem C1_open_after_threshold_failures
    (cfg : CircuitBreakerConfig) (service : String) (ts : List Nat) (t : Nat)
    (hlen : ts.length + 1 = cfg.failure_threshold) (ht : 0 < t) :
    ∀ now, t ≤ now → now - t < cfg.open_duration_ms →
      state (record_failure (record_failures ⟨[], cfg⟩ service ts) service t)
          service now = CircuitState.Open ∧
      (allow_request (record_failure (record_failures ⟨[], cfg⟩ service ts) service t)
          service now).1 = false := by
  intro now h1 h2
  obtain ⟨hcfg, hlk⟩ := record_failures_below cfg service ts ⟨[], cfg⟩ 0 rfl
    (Or.inr ⟨rfl, rfl⟩) (by omega)
  have hstep := record_failure_lookup (record_failures ⟨[], cfg⟩ service ts) service t
    { consecutive_failures := ts.length, consecutive_successes := 0,
      opened_at := 0, half_open_probes := 0 }
    (by
      rcases hlk with hlk | ⟨hlk, hlen0⟩
      · exact Or.inl (by simpa using hlk)
      · refine Or.inr ⟨hlk, ?_⟩
        simp at hlen0
        simp [BreakerState.new, hlen0])
  rw [if_pos (by simp [hcfg]; omega)] at hstep
  have hst : state (record_failure (record_failures ⟨[], cfg⟩ service ts) service t)
      service now = CircuitState.Open := by
    rw [state_eq_of_lookup _ _ _ _ hstep, record_failure_config, hcfg]
    rw [if_neg (by show ¬ (t = 0); omega)]
    rw [if_neg (by show ¬ (cfg.open_duration_ms ≤ now - t); omega)]
  refine ⟨hst, ?_⟩
  simp [allow_request, hst]

/-- C1 witness: with threshold 2 and open duration 1000 ms, failures at times
5 and 7 open the breaker and block requests at time 7. -/
theorem C1_open_after_threshold_failures_witness :
    CircuitBreakerRegistry.state
      (CircuitBreakerRegistry.record_failure
        (CircuitBreakerRegistry.record_failures
          ⟨[], ⟨2, 1000, 1⟩⟩ "svc" [5]) "svc" 7) "svc" 7 = CircuitState.Open ∧
    (CircuitBreakerRegistry.allow_request
      (CircuitBreakerRegistry.record_failure
        (CircuitBreakerRegistry.record_failures
          ⟨[], ⟨2, 1000, 1⟩⟩ "svc" [5]) "svc" 7) "svc" 7).1 = false :=
  C1_open_after_threshold_failures ⟨2, 1000, 1⟩ "svc" [5] 7 (by decide) (by decide)
    7 (by decide) (by decide)

/-- C9: A never-referenced service reports `Closed` state, an allowed request,
and zero failure/success counters; querying it through `get_or_create` lazily
inserts the default per-service entry. -/
theorem C9_fresh_service_defaults (reg : CircuitBreakerRegistry) (service : String)
    (now : Nat) (h : lookupBreaker reg.breakers service = none) :
    reg.state service now = CircuitState.Closed ∧
    (reg.allow_request service now).1 = true ∧
    reg.metrics service now = (CircuitState.Closed, 0, 0) ∧
    (reg.get_or_create service).1 = BreakerState.new ∧
    lookupBreaker (reg.get_or_create service).2.breakers service =
      some BreakerState.new := by
  have hst : reg.state service now = CircuitState.Closed := by
    simp [CircuitBreakerRegistry.state, CircuitBreakerRegistry.get_or_create, h,
      BreakerState.new]
  refine ⟨hst, ?_, ?_, ?_, ?_⟩
  · simp [CircuitBreakerRegistry.allow_request, hst]
  · simp [CircuitBreakerRegistry.metrics, CircuitBreakerRegistry.get_or_create, h,
      BreakerState.new, hst]
  · simp [CircuitBreakerRegistry.get_or_create, h]
  · simp [CircuitBreakerRegistry.get_or_create, h, lookupBreaker_setBreaker_same]

/-- C9 witness: an empty registry with the default configuration, service
name s, at time 0. -/
theorem C9_fresh_service_defaults_witness :
    CircuitBreakerRegistry.state ⟨[], ⟨5, 30000, 2⟩⟩ "s" 0 = CircuitState.Closed ∧
    (CircuitBreakerRegistry.allow_request ⟨[], ⟨5, 30000, 2⟩⟩ "s" 0).1 = true ∧
    CircuitBreakerRegistry.metrics ⟨[], ⟨5, 30000, 2⟩⟩ "s" 0 =
      (CircuitState.Closed, 0, 0) ∧
    (CircuitBreakerRegistry.get_or_create ⟨[], ⟨5, 30000, 2⟩⟩ "s").1 =
      BreakerState.new ∧
    lookupBreaker (CircuitBreakerRegistry.get_or_create
      ⟨[], ⟨5, 30000, 2⟩⟩ "s").2.breakers "s" = some BreakerState.new :=
  C9_fresh_service_defaults ⟨[], ⟨5, 30000, 2⟩⟩ "s" 0 (by decide)

/-- C3 counterexample: `failure_threshold = 2`, `open_duration = 10` ms,
`half_open_successes = 5`.  Two failures at time 100 open the breaker; at
time 110 it is `HalfOpen`; one `record_success` (below the close quota)
then one `record_failure` at time 111 leaves `opened_at = 100` (no fresh
timestamp) and the breaker still `HalfOpen` — the claimed immediate
re-open to `Open` does not happen. -/
theorem C3_halfopen_failure_counterexample :
    CircuitBreakerRegistry.state
      (CircuitBreakerRegistry.record_failure
        (CircuitBreakerRegistry.record_failure ⟨[], ⟨2, 10, 5⟩⟩ "s" 100) "s" 100)
      "s" 110 = CircuitState.HalfOpen ∧
    lookupBreaker
      (CircuitBreakerRegistry.record_failure
        (CircuitBreakerRegistry.record_success
          (CircuitBreakerRegistry.record_failure
            (CircuitBreakerRegistry.record_failure ⟨[], ⟨2, 10, 5⟩⟩ "s" 100)
            "s" 100) "s") "s" 111).breakers "s" =
      some { consecutive_failures := 1, consecutive_successes := 0,
             opened_at := 100, half_open_probes := 0 } ∧
    CircuitBreakerRegistry.state
      (CircuitBreakerRegistry.record_failure
        (CircuitBreakerRegistry.record_success
          (CircuitBreakerRegistry.record_failure
            (CircuitBreakerRegistry.record_failure ⟨[], ⟨2, 10, 5⟩⟩ "s" 100)
            "s" 100) "s") "s" 111) "s" 111 = CircuitState.HalfOpen := by
  decide

open CircuitBreakerRegistry in
/-- C3 (amended): a `record_failure` on a `HalfOpen` breaker re-opens it with
a fresh open timestamp and a reset probe counter exactly when it brings the
consecutive-failure counter to `failure_threshold`.  Because opening does not
reset that counter, this always holds for a half-open failure with no
intervening `record_success`; after a half-open `record_success` (which
resets the counter to zero) a single failure does not re-open the breaker
unless `failure_threshold ≤ 1`. -/
theorem C3_amended_halfopen_failure_reopens
    (reg : CircuitBreakerRegistry) (service : String) (b : BreakerState)
    (now t : Nat)
    (hlk : lookupBreaker reg.breakers service = some b)
    (hho : reg.state service now = CircuitState.HalfOpen)
    (hth : reg.config.failure_threshold ≤ b.consecutive_failures + 1)
    (ht : 0 < t) :
    lookupBreaker (reg.record_failure service t).breakers service =
      some { b with consecutive_successes := 0
                    consecutive_failures := b.consecutive_failures + 1
                    opened_at := t, half_open_probes := 0 } ∧
    ∀ now2, t ≤ now2 → now2 - t < reg.config.open_duration_ms →
      (reg.record_failure service t).state service now2 = CircuitState.Open := by
  have hstep := record_failure_lookup reg service t b (Or.inl hlk)
  rw [if_pos hth] at hstep
  refine ⟨hstep, ?_⟩
  intro now2 h1 h2
  rw [state_eq_of_lookup _ _ _ _ hstep, record_failure_config]
  rw [if_neg (by show ¬ (t = 0); omega)]
  rw [if_neg (by show ¬ (reg.config.open_duration_ms ≤ now2 - t); omega)]

/-- C3 (amended) witness: threshold 2, open duration 10 ms; after two failures
at 100 the breaker (2 consecutive failures) is `HalfOpen` at time 110, and a
failure at time 111 re-opens it with `opened_at = 111`. -/
theorem C3_amended_halfopen_failure_reopens_witness :
    lookupBreaker
      (CircuitBreakerRegistry.record_failure
        (CircuitBreakerRegistry.record_failure
          (CircuitBreakerRegistry.record_failure ⟨[], ⟨2, 10, 5⟩⟩ "s" 100)
          "s" 100) "s" 111).breakers "s" =
      some { consecutive_failures := 3, consecutive_successes := 0,
             opened_at := 111, half_open_probes := 0 } ∧
    ∀ now2, 111 ≤ now2 → now2 - 111 < (10 : Nat) →
      (CircuitBreakerRegistry.record_failure
        (CircuitBreakerRegistry.record_failure
          (CircuitBreakerRegistry.record_failure ⟨[], ⟨2, 10, 5⟩⟩ "s" 100)
          "s" 100) "s" 111).state "s" now2 = CircuitState.Open :=
  C3_amended_halfopen_failure_reopens
    (CircuitBreakerRegistry.record_failure
      (CircuitBreakerRegistry.record_failure ⟨[], ⟨2, 10, 5⟩⟩ "s" 100) "s" 100)
    "s"
    { consecutive_failures := 2, consecutive_successes := 0,
      opened_at := 100, half_open_probes := 0 }
    110 111 (by decide) (by decide) (by decide) (by decide)

/-! ## Response cache (`src/middleware/cache.rs`) -/

/-- `CacheEntry`: payload bytes, HTTP status, content type, absolute expiry
in epoch seconds. -/
structure CacheEntry where
  data : List Nat
  status : Nat
  content_type : String
  expires_at : Nat
deriving DecidableEq, Repr

/-- `CacheConfig` (TTLs in seconds). -/
structure CacheConfig where
  default_ttl : Nat
  auth_ttl : Nat
  search_ttl : Nat
  max_entries : Nat
  enabled : Bool
deriving DecidableEq, Repr

/-- `ResponseCache`: entry map (`DashMap` as association list, in iteration
order), configuration, and the hit/miss counters. -/
structure ResponseCache where
  entries : List (String × CacheEntry)
  config : CacheConfig
  hits : Nat
  misses : Nat
deriving DecidableEq, Repr

/-- Lookup in the entry map. -/
def lookupEntry : List (String × CacheEntry) → String → Option CacheEntry
  | [], _ => none
  | (k, v) :: t, s => if k = s then some v else lookupEntry t s

/-- `DashMap::remove`: drop the entry for a key. -/
def removeEntry : List (String × CacheEntry) → String → List (String × CacheEntry)
  | [], _ => []
  | (k, v) :: t, s => if k = s then t else (k, v) :: removeEntry t s

/-- `DashMap::insert`: replace the entry for a key, or add it when absent. -/
def insertEntry : List (String × CacheEntry) → String → CacheEntry → List (String × CacheEntry)
  | [], s, e => [(s, e)]
  | (k, v) :: t, s, e => if k = s then (s, e) :: t else (k, v) :: insertEntry t s e

namespace ResponseCache

/-- `get`: disabled caching and absent keys are misses that touch nothing;
an entry with `expires_at < now` is removed and counted as a miss; otherwise
the payload, status and content type are returned and a hit is counted. -/
def get (c : ResponseCache) (key : String) (now : Nat) :
    Option (List Nat × Nat × String) × ResponseCache :=
  if !c.config.enabled then (none, c)
  else
    match lookupEntry c.entries key with
    | none => (none, c)
    | some e =>
      if e.expires_at < now then
        (none, { c with entries := removeEntry c.entries key, misses := c.misses + 1 })
      else
        (some (e.data, e.status, e.content_type), { c with hits := c.hits + 1 })

/-- The eviction scan of `set`: walk the entries in iteration order, collecting
a key when its entry is expired or fewer than `to_remove` keys have been
collected; stop as soon as `to_remove` keys are collected.  Mirrors the
`for`/`break` loop of the source. -/
def evict_scan (now to_remove : Nat) :
    List (String × CacheEntry) → List String → List String
  | [], acc => acc
  | (k, e) :: t, acc =>
    let acc1 := if e.expires_at < now ∨ acc.length < to_remove then acc ++ [k] else acc
    if to_remove ≤ acc1.length then acc1 else evict_scan now to_remove t acc1

/-- `set`: no-op when disabled; when the store is at or above capacity, remove
the keys collected by the eviction scan (`to_remove = max_entries / 10`);
then insert the new entry with `expires_at = now + ttl`. -/
def set (c : ResponseCache) (key : String) (data : List Nat) (status : Nat)
    (content_type : String) (ttl : Nat) (now : Nat) : ResponseCache :=
  if !c.config.enabled then c
  else
    let c1 :=
      if c.config.max_entries ≤ c.entries.length then
        let to_remove := c.config.max_entries / 10
        let keys := evict_scan now to_remove c.entries []
        { c with entries := keys.foldl removeEntry c.entries }
      else c
    let e : CacheEntry :=
      { data := data, status := status, content_type := content_type,
        expires_at := now + ttl }
    { c1 with entries := insertEntry c1.entries key e }

/-- `stats`: hits, misses, and current size. -/
def stats (c : ResponseCache) : Nat × Nat × Nat :=
  (c.hits, c.misses, c.entries.length)

end ResponseCache

theorem insertEntry_length_le (es : List (String × CacheEntry)) (k : String)
    (e : CacheEntry) : (insertEntry es k e).length ≤ es.length + 1 := by
  induction es with
  | nil => simp [insertEntry]
  | cons hd t ih =>
    by_cases h : hd.1 = k
    · simp [insertEntry, h]
    · simp only [insertEntry]
      rw [if_neg h]
      simpa using Nat.succ_le_succ ih

/-- The eviction scan collects exactly the first `n - acc.length` keys while
the accumulator is short of the quota and there are enough entries. -/
theorem evict_scan_take (now n : Nat) :
    ∀ (es : List (String × CacheEntry)) (acc : List String),
    acc.length < n → n ≤ acc.length + es.length →
    ResponseCache.evict_scan now n es acc =
      acc ++ (es.take (n - acc.length)).map Prod.fst := by
  intro es
  induction es with
  | nil =>
    intro acc h1 h2
    simp at h2
    omega
  | cons hd t ih =>
    intro acc h1 h2
    simp only [ResponseCache.evict_scan]
    rw [if_pos (Or.inr h1)]
    by_cases hend : n ≤ (acc ++ [hd.1]).length
    · rw [if_pos hend]
      have hn : n - acc.length = 1 := by simp at hend; omega
      simp [hn]
    · rw [if_neg hend]
      have hrec := ih (acc ++ [hd.1])
        (by simp at hend ⊢; omega) (by simp at h2 ⊢; omega)
      rw [hrec]
      have hn : n - acc.length = (n - (acc.length + 1)) + 1 := by
        simp at hend; omega
      simp [hn, List.append_assoc]

/-- Removing, in order, the keys of the first `m` entries leaves the
remaining `drop m` suffix. -/
theorem foldl_removeEntry_take :
    ∀ (m : Nat) (es : List (String × CacheEntry)), m ≤ es.length →
    List.foldl removeEntry es ((es.take m).map Prod.fst) = es.drop m := by
  intro m
  induction m with
  | zero => intro es _; simp
  | succ m ih =>
    intro es h
    match es with
    | [] => simp at h
    | (k, e) :: t =>
      simp only [List.take_succ_cons, List.map_cons, List.foldl_cons,
        List.drop_succ_cons]
      rw [show removeEntry ((k, e) :: t) k = t by simp [removeEntry]]
      exact ih t (by simpa using h)

/-- C6 counterexample: with an entry expiring at second 100, a `get` at
`now = 100` (so `now ≥ expiresAt`) still returns the stored entry as a hit
and does not count a miss, contradicting the claimed miss at the boundary. -/
theorem C6_expiry_boundary_counterexample :
    (ResponseCache.get
      ⟨[("k", ⟨[1], 200, "t", 100⟩)], ⟨60, 300, 30, 10000, true⟩, 0, 0⟩
      "k" 100).1 = some ([1], 200, "t") ∧
    (ResponseCache.get
      ⟨[("k", ⟨[1], 200, "t", 100⟩)], ⟨60, 300, 30, 10000, true⟩, 0, 0⟩
      "k" 100).2.misses = 0 ∧
    (ResponseCache.get
      ⟨[("k", ⟨[1], 200, "t", 100⟩)], ⟨60, 300, 30, 10000, true⟩, 0, 0⟩
      "k" 100).2.entries = [("k", ⟨[1], 200, "t", 100⟩)] := by
  decide

/-- C6 (amended): an entry is never returned once `now` is strictly past
`expiresAt` — such a `get` removes the entry and increments the miss
counter — while a `get` at or before expiry (including `now = expiresAt`
exactly) returns the stored payload, status and content type as a hit. -/
theorem C6_amended_expiry (c : ResponseCache) (key : String) (e : CacheEntry)
    (now : Nat) (hen : c.config.enabled = true)
    (hlk : lookupEntry c.entries key = some e) :
    (e.expires_at < now →
      c.get key now =
        (none, { c with entries := removeEntry c.entries key,
                        misses := c.misses + 1 })) ∧
    (now ≤ e.expires_at →
      c.get key now =
        (some (e.data, e.status, e.content_type), { c with hits := c.hits + 1 })) := by
  constructor
  · intro h
    simp [ResponseCache.get, hen, hlk, h]
  · intro h
    simp [ResponseCache.get, hen, hlk, Nat.not_lt.mpr h]

/-- C6 (amended) witness: an entry expiring at 100 is a counted miss (and is
removed) at `now = 101`, and is returned at `now = 100`. -/
theorem C6_amended_expiry_witness :
    (ResponseCache.get
      ⟨[("k", ⟨[1], 200, "t", 100⟩)], ⟨60, 300, 30, 10000, true⟩, 0, 0⟩
      "k" 101) =
      (none, ⟨[], ⟨60, 300, 30, 10000, true⟩, 0, 1⟩) ∧
    (ResponseCache.get
      ⟨[("k", ⟨[1], 200, "t", 100⟩)], ⟨60, 300, 30, 10000, true⟩, 0, 0⟩
      "k" 100) =
      (some ([1], 200, "t"),
        ⟨[("k", ⟨[1], 200, "t", 100⟩)], ⟨60, 300, 30, 10000, true⟩, 1, 0⟩) :=
  ⟨(C6_amended_expiry
      ⟨[("k", ⟨[1], 200, "t", 100⟩)], ⟨60, 300, 30, 10000, true⟩, 0, 0⟩
      "k" ⟨[1], 200, "t", 100⟩ 101 (by decide) (by decide)).1 (by decide),
   (C6_amended_expiry
      ⟨[("k", ⟨[1], 200, "t", 100⟩)], ⟨60, 300, 30, 10000, true⟩, 0, 0⟩
      "k" ⟨[1], 200, "t", 100⟩ 100 (by decide) (by decide)).2 (by decide)⟩

/-- C7 counterexample: with `max_entries = 5` the eviction batch
`max_entries / 10` is zero, so filling the store to 5 unexpired entries and
inserting a sixth key leaves the store at size 6, above the maximum. -/
theorem C7_capacity_counterexample :
    (ResponseCache.set
      ⟨[("a", ⟨[], 200, "t", 1000⟩), ("b", ⟨[], 200, "t", 1000⟩),
        ("c", ⟨[], 200, "t", 1000⟩), ("d", ⟨[], 200, "t", 1000⟩),
        ("e", ⟨[], 200, "t", 1000⟩)], ⟨60, 300, 30, 5, true⟩, 0, 0⟩
      "f" [] 200 "t" 60 0).entries.length = 6 ∧ 5 < 6 := by
  decide

/-- C7 (amended): provided `max_entries / 10 ≥ 1` (i.e. `max_entries ≥ 10`),
when the store holds exactly `max_entries` entries, the eviction pass run by
`set` before the insert guarantees the store size never exceeds
`max_entries` after the insert completes. -/
theorem C7_amended_capacity_bound (c : ResponseCache) (key : String)
    (data : List Nat) (status : Nat) (content_type : String) (ttl now : Nat)
    (hmax : 10 ≤ c.config.max_entries)
    (hlen : c.entries.length = c.config.max_entries) :
    (c.set key data status content_type ttl now).entries.length ≤
      c.config.max_entries := by
  by_cases hen : c.config.enabled
  · have hdiv : 1 ≤ c.config.max_entries / 10 := by
      exact Nat.le_div_iff_mul_le (by omega) |>.mpr (by omega)
    have hdivle : c.config.max_entries / 10 ≤ c.config.max_entries := Nat.div_le_self _ _
    have hscan := evict_scan_take now (c.config.max_entries / 10) c.entries []
      (by simpa using hdiv) (by simp [hlen]; omega)
    simp only [List.length_nil, Nat.sub_zero, List.nil_append] at hscan
    simp only [ResponseCache.set, hen, Bool.not_true, Bool.false_eq_true,
      if_false, if_pos (le_of_eq hlen.symm)]
    rw [hscan]
    rw [foldl_removeEntry_take (c.config.max_entries / 10) c.entries (by omega)]
    calc (insertEntry (c.entries.drop (c.config.max_entries / 10)) key
            { data := data, status := status, content_type := content_type,
              expires_at := now + ttl }).length
        ≤ (c.entries.drop (c.config.max_entries / 10)).length + 1 :=
          insertEntry_length_le _ _ _
      _ = c.config.max_entries - c.config.max_entries / 10 + 1 := by
          simp [hlen]
      _ ≤ c.config.max_entries := by omega
  · simp only [ResponseCache.set, Bool.not_eq_true' .. ]
    simp [Bool.eq_false_iff.mpr hen, hlen]

/-- C7 (amended) witness: a cache with `max_entries = 10`, full with ten
unexpired entries; inserting an eleventh key keeps the size at or below 10. -/
theorem C7_amended_capacity_bound_witness :
    (ResponseCache.set
      ⟨[("a", ⟨[], 200, "t", 1000⟩), ("b", ⟨[], 200, "t", 1000⟩),
        ("c", ⟨[], 200, "t", 1000⟩), ("d", ⟨[], 200, "t", 1000⟩),
        ("e", ⟨[], 200, "t", 1000⟩), ("f", ⟨[], 200, "t", 1000⟩),
        ("g", ⟨[], 200, "t", 1000⟩), ("h", ⟨[], 200, "t", 1000⟩),
        ("i", ⟨[], 200, "t", 1000⟩), ("j", ⟨[], 200, "t", 1000⟩)],
       ⟨60, 300, 30, 10, true⟩, 0, 0⟩
      "z" [] 200 "t" 60 0).entries.length ≤ 10 :=
  C7_amended_capacity_bound
    ⟨[("a", ⟨[], 200, "t", 1000⟩), ("b", ⟨[], 200, "t", 1000⟩),
      ("c", ⟨[], 200, "t", 1000⟩), ("d", ⟨[], 200, "t", 1000⟩),
      ("e", ⟨[], 200, "t", 1000⟩), ("f", ⟨[], 200, "t", 1000⟩),
      ("g", ⟨[], 200, "t", 1000⟩), ("h", ⟨[], 200, "t", 1000⟩),
      ("i", ⟨[], 200, "t", 1000⟩), ("j", ⟨[], 200, "t", 1000⟩)],
     ⟨60, 300, 30, 10, true⟩, 0, 0⟩
    "z" [] 200 "t" 60 0 (by decide) (by decide)

/-- C10: a `get` for an absent key, or any `get` while caching is disabled,
is a miss that leaves the whole cache (both counters included) unchanged;
the miss counter is incremented exactly when a present-but-expired entry is
read while caching is enabled. -/
theorem C10_get_miss_frame (c : ResponseCache) (key : String) (now : Nat) :
    ((lookupEntry c.entries key = none ∨ c.config.enabled = false) →
      c.get key now = (none, c)) ∧
    ((c.get key now).2.misses = c.misses + 1 ↔
      c.config.enabled = true ∧
        ∃ e, lookupEntry c.entries key = some e ∧ e.expires_at < now) := by
  constructor
  · rintro (h | h)
    · by_cases hen : c.config.enabled <;> simp [ResponseCache.get, hen, h]
    · simp [ResponseCache.get, h]
  · by_cases hen : c.config.enabled
    · cases hlk : lookupEntry c.entries key with
      | none => simp [ResponseCache.get, hen, hlk]
      | some e =>
        by_cases hex : e.expires_at < now
        · simp [ResponseCache.get, hen, hlk, hex]
        · simp [ResponseCache.get, hen, hlk, hex]
    · simp [ResponseCache.get, Bool.eq_false_iff.mpr hen]

/-- C10 witness: in a cache holding only key k, a `get` for the absent key
z at time 5 returns a miss, leaves the cache untouched, and its miss
counter satisfies the increment characterization. -/
theorem C10_get_miss_frame_witness :
    ((lookupEntry [("k", ⟨[1], 200, "t", 100⟩)] "z" = none ∨
        (⟨60, 300, 30, 10000, true⟩ : CacheConfig).enabled = false) →
      ResponseCache.get
        ⟨[("k", ⟨[1], 200, "t", 100⟩)], ⟨60, 300, 30, 10000, true⟩, 0, 0⟩ "z" 5 =
        (none, ⟨[("k", ⟨[1], 200, "t", 100⟩)], ⟨60, 300, 30, 10000, true⟩, 0, 0⟩)) ∧
    ((ResponseCache.get
        ⟨[("k", ⟨[1], 200, "t", 100⟩)], ⟨60, 300, 30, 10000, true⟩, 0, 0⟩
        "z" 5).2.misses = 0 + 1 ↔
      (⟨60, 300, 30, 10000, true⟩ : CacheConfig).enabled = true ∧
        ∃ e, lookupEntry [("k", ⟨[1], 200, "t", 100⟩)] "z" = some e ∧
          e.expires_at < 5) :=
  C10_get_miss_frame
    ⟨[("k", ⟨[1], 200, "t", 100⟩)], ⟨60, 300, 30, 10000, true⟩, 0, 0⟩ "z" 5

/-! ## Rate limiter (`src/middleware/rate_limit.rs`)

The Redis sorted set for one `ratelimit:{client}:{route}` key is modelled as
the list of member timestamps in insertion order.  `ZADD key now.to_string()
now` uses the second-resolution timestamp string as the member, so the set
holds at most one member per epoch second. -/

/-- Structured error body `{"error": {"code": ..., "message": ...}}`. -/
structure ErrorBody where
  code : String
  message : String
deriving DecidableEq, Repr

/-- `RateLimitInfo` carried into the `X-RateLimit-*` response headers. -/
structure RateLimitInfo where
  limit : Nat
  remaining : Nat
  reset : Nat
deriving DecidableEq, Repr

/-- `ZREMRANGEBYSCORE key 0 window_start`: drop members with score `≤ ws`. -/
def zrembyscore : List Nat → Nat → List Nat
  | [], _ => []
  | t :: r, ws => if t ≤ ws then zrembyscore r ws else t :: zrembyscore r ws

/-- `ZADD key t.to_string() t`: sets are keyed by member, so a request in an
already-present second leaves the set unchanged. -/
def zadd (zs : List Nat) (t : Nat) : List Nat :=
  if t ∈ zs then zs else zs ++ [t]

/-- `ZCOUNT key window_start now` (both bounds inclusive). -/
def zcount : List Nat → Nat → Nat → Nat
  | [], _, _ => 0
  | t :: r, lo, hi => (if lo ≤ t ∧ t ≤ hi then 1 else 0) + zcount r lo hi

/-- `check_rate_limit`: prune members at or before `now - window_secs`, add
the current second, count the window, and reject when the count (which
includes the current request) exceeds the limit.  The request is recorded
regardless of the outcome. -/
def check_rate_limit (zs : List Nat) (limit window_secs now : Nat) :
    Option RateLimitInfo × List Nat :=
  let window_start := now - window_secs
  let zs1 := zadd (zrembyscore zs window_start) now
  let count := zcount zs1 window_start now
  if limit < count then (none, zs1)
  else (some { limit := limit, remaining := limit - count,
               reset := now + window_secs }, zs1)

/-- Outcome of `rate_limit_middleware` for one request: either the wrapped
handler runs and the `X-RateLimit-Limit` / `X-RateLimit-Remaining` /
`X-RateLimit-Reset` headers are attached, or a 429 with the `RATE_LIMITED`
error body is returned. -/
inductive RateLimitOutcome where
  | allowed (limit remaining reset : Nat)
  | rejected (status : Nat) (body : ErrorBody)
deriving DecidableEq, Repr

/-- `rate_limit_middleware`, specialised to one client/route key (Redis
reachable, `skip_rate_limiting` off). -/
def rate_limit_middleware (zs : List Nat) (limit window_secs now : Nat) :
    RateLimitOutcome × List Nat :=
  match check_rate_limit zs limit window_secs now with
  | (some info, zs1) => (RateLimitOutcome.allowed info.limit info.remaining info.reset, zs1)
  | (none, zs1) =>
    (RateLimitOutcome.rejected 429
      { code := "RATE_LIMITED", message := "Too many requests" }, zs1)

theorem zrembyscore_keep (zs : List Nat) (ws : Nat) (h : ∀ t ∈ zs, ws < t) :
    zrembyscore zs ws = zs := by
  induction zs with
  | nil => rfl
  | cons t r ih =>
    have ht := h t (by simp)
    have hr := ih (fun x hx => h x (by simp [hx]))
    simp only [zrembyscore]
    rw [if_neg (show ¬ t ≤ ws by omega), hr]

theorem zrembyscore_drop_all (zs : List Nat) (ws : Nat) (h : ∀ t ∈ zs, t ≤ ws) :
    zrembyscore zs ws = [] := by
  induction zs with
  | nil => rfl
  | cons t r ih =>
    have ht := h t (by simp)
    simp only [zrembyscore, if_pos ht]
    exact ih (fun x hx => h x (by simp [hx]))

theorem zcount_full (zs : List Nat) (lo hi : Nat) (h : ∀ t ∈ zs, lo ≤ t ∧ t ≤ hi) :
    zcount zs lo hi = zs.length := by
  induction zs with
  | nil => rfl
  | cons t r ih =>
    have ht := h t (by simp)
    simp only [zcount, if_pos ht, List.length_cons]
    rw [ih (fun x hx => h x (by simp [hx]))]
    omega

/-- One `check_rate_limit` step when every stored member is strictly inside
the window and strictly older than `now`. -/
theorem check_rate_limit_in_window (zs : List Nat) (limit window now : Nat)
    (h1 : ∀ t ∈ zs, now - window < t) (h2 : ∀ t ∈ zs, t < now) :
    check_rate_limit zs limit window now =
      (if limit < zs.length + 1 then none
       else some { limit := limit, remaining := limit - (zs.length + 1),
                   reset := now + window }, zs ++ [now]) := by
  simp only [check_rate_limit]
  rw [zrembyscore_keep zs _ h1]
  rw [show zadd zs now = zs ++ [now] by
    unfold zadd
    rw [if_neg (fun h => absurd (h2 now h) (by omega))]]
  rw [zcount_full (zs ++ [now]) _ _ (by
    intro t ht
    rcases List.mem_append.mp ht with ht | ht
    · exact ⟨le_of_lt (h1 t ht), le_of_lt (h2 t ht)⟩
    · simp at ht
      omega)]
  simp only [List.length_append, List.length_cons, List.length_nil]
  split <;> rfl

/-- C4 counterexample: two requests in the same epoch second (1000) under
`limit = 5`, `window = 60`.  The Redis member for both is the string "1000",
so the second request leaves the set unchanged and is admitted with
`X-RateLimit-Remaining = 4` again — the claimed strictly decreasing sequence
4, 3, 2, 1, 0 does not occur. -/
theorem C4_same_second_counterexample :
    rate_limit_middleware [] 5 60 1000 =
      (RateLimitOutcome.allowed 5 4 1060, [1000]) ∧
    rate_limit_middleware [1000] 5 60 1000 =
      (RateLimitOutcome.allowed 5 4 1060, [1000]) ∧
    (4 : Nat) ≠ 3 := by
  decide

/-- C4 (amended): with `limit = 5`, `window = 60` s, five requests at
*distinct* epoch seconds within a 10-second span are admitted with
`X-RateLimit-Remaining` 4, 3, 2, 1, 0 in order; a sixth request inside the
window is rejected with status 429 and the `RATE_LIMITED` error body (and is
still recorded); once the window has fully elapsed past the last recorded
request, requests are admitted again.  (`60 ≤ t0` keeps the source's
`now - window_secs` subtraction in range.) -/
theorem C4_amended_sliding_window (t0 t1 t2 t3 t4 t5 t6 : Nat)
    (h60 : 60 ≤ t0) (h01 : t0 < t1) (h12 : t1 < t2) (h23 : t2 < t3)
    (h34 : t3 < t4) (h45 : t4 < t5) (hspan : t4 < t0 + 10)
    (hwin : t5 < t0 + 60) (hafter : t5 + 60 ≤ t6) :
    rate_limit_middleware [] 5 60 t0 =
      (RateLimitOutcome.allowed 5 4 (t0 + 60), [t0]) ∧
    rate_limit_middleware [t0] 5 60 t1 =
      (RateLimitOutcome.allowed 5 3 (t1 + 60), [t0, t1]) ∧
    rate_limit_middleware [t0, t1] 5 60 t2 =
      (RateLimitOutcome.allowed 5 2 (t2 + 60), [t0, t1, t2]) ∧
    rate_limit_middleware [t0, t1, t2] 5 60 t3 =
      (RateLimitOutcome.allowed 5 1 (t3 + 60), [t0, t1, t2, t3]) ∧
    rate_limit_middleware [t0, t1, t2, t3] 5 60 t4 =
      (RateLimitOutcome.allowed 5 0 (t4 + 60), [t0, t1, t2, t3, t4]) ∧
    rate_limit_middleware [t0, t1, t2, t3, t4] 5 60 t5 =
      (RateLimitOutcome.rejected 429
        { code := "RATE_LIMITED", message := "Too many requests" },
       [t0, t1, t2, t3, t4, t5]) ∧
    rate_limit_middleware [t0, t1, t2, t3, t4, t5] 5 60 t6 =
      (RateLimitOutcome.allowed 5 4 (t6 + 60), [t6]) := by
  have step : ∀ (zs : List Nat) (now : Nat), (∀ t ∈ zs, now - 60 < t) →
      (∀ t ∈ zs, t < now) →
      rate_limit_middleware zs 5 60 now =
        (if 5 < zs.length + 1 then
          RateLimitOutcome.rejected 429
            { code := "RATE_LIMITED", message := "Too many requests" }
         else RateLimitOutcome.allowed 5 (5 - (zs.length + 1)) (now + 60),
         zs ++ [now]) := by
    intro zs now ha hb
    by_cases hc : 5 < zs.length + 1
    · simp only [rate_limit_middleware,
        check_rate_limit_in_window zs 5 60 now ha hb, if_pos hc]
    · simp only [rate_limit_middleware,
        check_rate_limit_in_window zs 5 60 now ha hb, if_neg hc]
  refine ⟨?_, ?_, ?_, ?_, ?_, ?_, ?_⟩
  · rw [step [] t0 (by simp) (by simp)]
    rfl
  · rw [step [t0] t1 (by intro t ht; simp at ht; omega)
      (by intro t ht; simp at ht; omega)]
    rfl
  · rw [step [t0, t1] t2 (by intro t ht; simp at ht; omega)
      (by intro t ht; simp at ht; omega)]
    rfl
  · rw [step [t0, t1, t2] t3 (by intro t ht; simp at ht; omega)
      (by intro t ht; simp at ht; omega)]
    rfl
  · rw [step [t0, t1, t2, t3] t4 (by intro t ht; simp at ht; omega)
      (by intro t ht; simp at ht; omega)]
    rfl
  · rw [step [t0, t1, t2, t3, t4] t5 (by intro t ht; simp at ht; omega)
      (by intro t ht; simp at ht; omega)]
    rfl
  · simp only [rate_limit_middleware, check_rate_limit]
    rw [zrembyscore_drop_all [t0, t1, t2, t3, t4, t5] (t6 - 60)
      (by intro t ht; simp at ht; omega)]
    rw [show zadd [] t6 = [t6] by simp [zadd]]
    rw [show zcount [t6] (t6 - 60) t6 = 1 by simp [zcount]]
    rfl

/-- C4 (amended) witness: requests at seconds 1000–1004 (admitted, remaining
4..0), a sixth at 1005 (429 `RATE_LIMITED`), one at 1065 after the window
(admitted again). -/
theorem C4_amended_sliding_window_witness :
    rate_limit_middleware [] 5 60 1000 =
      (RateLimitOutcome.allowed 5 4 1060, [1000]) ∧
    rate_limit_middleware [1000] 5 60 1001 =
      (RateLimitOutcome.allowed 5 3 1061, [1000, 1001]) ∧
    rate_limit_middleware [1000, 1001] 5 60 1002 =
      (RateLimitOutcome.allowed 5 2 1062, [1000, 1001, 1002]) ∧
    rate_limit_middleware [1000, 1001, 1002] 5 60 1003 =
      (RateLimitOutcome.allowed 5 1 1063, [1000, 1001, 1002, 1003]) ∧
    rate_limit_middleware [1000, 1001, 1002, 1003] 5 60 1004 =
      (RateLimitOutcome.allowed 5 0 1064, [1000, 1001, 1002, 1003, 1004]) ∧
    rate_limit_middleware [1000, 1001, 1002, 1003, 1004] 5 60 1005 =
      (RateLimitOutcome.rejected 429
        { code := "RATE_LIMITED", message := "Too many requests" },
       [1000, 1001, 1002, 1003, 1004, 1005]) ∧
    rate_limit_middleware [1000, 1001, 1002, 1003, 1004, 1005] 5 60 1065 =
      (RateLimitOutcome.allowed 5 4 1125, [1065]) :=
  C4_amended_sliding_window 1000 1001 1002 1003 1004 1005 1065
    (by decide) (by decide) (by decide) (by decide) (by decide) (by decide)
    (by decide) (by decide) (by decide)

/-! ## Zero trust timestamp validation (`src/middleware/zero_trust.rs`) -/

/-- `ZeroTrustLayer` configuration.  Note: `zero_trust_middleware` is
installed with `axum::middleware::from_fn` and receives no state, so none
of these fields reach the timestamp check. -/
structure ZeroTrustLayer where
  max_request_age_secs : Nat
  enforce_timestamps : Bool
  require_correlation_id : Bool
  enforce_service_identity : Bool
deriving DecidableEq, Repr

/-- The timestamp-freshness step of `zero_trust_middleware`.  The
`X-Request-Timestamp` header is `none` when absent, `some none` when present
but not parseable as an integer, and `some (some ts)` when parseable.  The
middleware compares the absolute drift against the literal constant 300 and
rejects with a 400 `STALE_REQUEST` body; a missing or unparseable header
falls through. -/
def zero_trust_timestamp_check (ts_header : Option (Option Nat)) (now : Nat) :
    Option (Nat × ErrorBody) :=
  match ts_header with
  | some (some ts) =>
    let drift := if ts < now then now - ts else ts - now
    if 300 < drift then
      some (400, { code := "STALE_REQUEST",
                   message := "Request timestamp is outside acceptable window" })
    else none
  | _ => none

/-- C5 counterexample: with `max_request_age_secs` configured to 100, a
request whose timestamp drifts 200 seconds from server time exceeds the
configured threshold, yet the middleware (which hard-codes 300 and never
reads `ZeroTrustLayer`) lets it pass. -/
theorem C5_configured_threshold_counterexample :
    (ZeroTrustLayer.mk 100 true false true).max_request_age_secs = 100 ∧
    200 > 100 ∧
    zero_trust_timestamp_check (some (some 1200)) 1000 = none := by
  decide

/-- C5 (amended): a request carrying a parseable `X-Request-Timestamp` is
rejected with status 400 and the `STALE_REQUEST` error body exactly when the
absolute drift between its timestamp and server time exceeds the fixed
300-second constant (the default value of `max_request_age_secs`; the
middleware does not read the configured value); a missing or unparseable
timestamp header is never rejected for staleness. -/
theorem C5_amended_stale_request (ts_header : Option (Option Nat)) (now : Nat) :
    (∀ ts, ts_header = some (some ts) →
      (zero_trust_timestamp_check ts_header now =
        some (400, { code := "STALE_REQUEST",
                     message := "Request timestamp is outside acceptable window" }) ↔
        300 < (if ts < now then now - ts else ts - now))) ∧
    ((ts_header = none ∨ ts_header = some none) →
      zero_trust_timestamp_check ts_header now = none) := by
  constructor
  · rintro ts rfl
    by_cases h : 300 < (if ts < now then now - ts else ts - now)
    · simp [zero_trust_timestamp_check, h]
    · simp [zero_trust_timestamp_check, h]
  · rintro (rfl | rfl) <;> rfl

/-- C5 (amended) witness: a timestamp 400 seconds behind server time 1000 is
rejected as stale; one 100 seconds behind passes; an unparseable header
passes. -/
theorem C5_amended_stale_request_witness :
    zero_trust_timestamp_check (some (some 600)) 1000 =
      some (400, { code := "STALE_REQUEST",
                   message := "Request timestamp is outside acceptable window" }) ∧
    zero_trust_timestamp_check (some (some 900)) 1000 = none ∧
    zero_trust_timestamp_check (some none) 1000 = none :=
  ⟨((C5_amended_stale_request (some (some 600)) 1000).1 600 rfl).mpr (by decide),
   by decide,
   (C5_amended_stale_request (some none) 1000).2 (Or.inr rfl)⟩

/-! ## Authentication middleware (`src/middleware/auth.rs`) -/

/-- The `User` model (`src/models/user.rs` shape as used by the middleware). -/
structure User where
  id : String
  email : String
  name : Option String
  picture : Option String
  roles : List String
deriving DecidableEq, Repr

/-- `ApiKeyInfo` as returned by `AuthClient::validate_api_key`. -/
structure ApiKeyInfo where
  id : String
  user_id : String
  name : String
  scopes : List String
deriving DecidableEq, Repr

/-- `demo_user()`: the fixed development identity used when bypass is on. -/
def demo_user : User :=
  { id := "demo-user-001"
    email := "demo@confuse.dev"
    name := some "Demo User"
    picture := none
    roles := ["user"] }

/-- The bearer-token extraction of the authorization header value (the
source strips the "Bearer " front).  Kept irreducible so proofs treat the
string operation as atomic. -/
@[irreducible] def bearerToken (v : String) : Option String :=
  if v.startsWith "Bearer " then some (v.drop 7) else none

/-- `auth_middleware`: bypass, else bearer token (malformed header is a 401),
else API key (converted to a `User`), else 401.  The auth-service calls are
oracles `verify_token` and `validate_api_key`; errors propagate. -/
def auth_middleware (bypass : Bool)
    (verify_token : String → Except String User)
    (validate_api_key : String → Except String ApiKeyInfo)
    (auth_header api_key : Option String) : Except String User :=
  if bypass then Except.ok demo_user
  else
    match auth_header with
    | some auth_value =>
      match bearerToken auth_value with
      | some token => verify_token token
      | none => Except.error "Invalid authorization header format"
    | none =>
      match api_key with
      | some key =>
        match validate_api_key key with
        | Except.ok info =>
          Except.ok
            { id := info.user_id
              email := "api-key-" ++ info.id ++ "@confuse.dev"
              name := some info.name
              picture := none
              roles := info.scopes }
        | Except.error e => Except.error e
      | none => Except.error "No authentication provided"

/-- `optional_auth_middleware`: bypass, else bearer token only; a failed or
absent resolution leaves the request unauthenticated (`none`) and the
handler chain always runs.  The `X-API-Key` header is received but never
consulted. -/
def optional_auth_middleware (bypass : Bool)
    (verify_token : String → Except String User)
    (auth_header api_key : Option String) : Option User :=
  if bypass then some demo_user
  else
    match auth_header with
    | some auth_value =>
      match bearerToken auth_value with
      | some token =>
        match verify_token token with
        | Except.ok u => some u
        | Except.error _ => none
      | none => none
    | none => none

/-- C8 counterexample: a request carrying only a valid `X-API-Key` (no bearer
token, bypass off).  The mandatory middleware resolves an identity from the
key, but the optional variant — which skips the API-key step of the
resolution order — attaches nothing. -/
theorem C8_api_key_counterexample :
    auth_middleware false (fun _ => Except.error "no token")
      (fun _ => Except.ok ⟨"key-1", "user-9", "ci key", ["read"]⟩)
      none (some "sk-abc") =
      Except.ok ⟨"user-9", "api-key-key-1@confuse.dev", some "ci key", none, ["read"]⟩ ∧
    optional_auth_middleware false (fun _ => Except.error "no token")
      none (some "sk-abc") = none := by
  constructor
  · rfl
  · rfl

/-- C8 (amended): the optional-auth variant never rejects (it always yields
an outcome that lets the handler chain run, with `some` identity or `none`),
and it applies only the bypass and bearer-token steps of the mandatory
resolution order: whatever identity it attaches, the mandatory middleware
resolves the same identity; and it attaches nothing exactly when bypass is
off and no bearer token verifies — in particular it never consults the
`X-API-Key` header. -/
theorem C8_amended_optional_auth (bypass : Bool)
    (verify_token : String → Except String User)
    (validate_api_key : String → Except String ApiKeyInfo)
    (auth_header api_key api_key2 : Option String) :
    (∀ u, optional_auth_middleware bypass verify_token auth_header api_key = some u →
      auth_middleware bypass verify_token validate_api_key auth_header api_key =
        Except.ok u) ∧
    (optional_auth_middleware bypass verify_token auth_header api_key =
      optional_auth_middleware bypass verify_token auth_header api_key2) ∧
    (optional_auth_middleware bypass verify_token auth_header api_key = none ↔
      (bypass = false ∧
        ∀ v token, auth_header = some v → bearerToken v = some token →
          ∃ e, verify_token token = Except.error e)) := by
  refine ⟨?_, ?_, ?_⟩
  · intro u hu
    unfold optional_auth_middleware at hu
    unfold auth_middleware
    cases bypass with
    | true =>
      simp at hu
      simp [hu]
    | false =>
      simp only [Bool.false_eq_true, if_false] at hu ⊢
      cases auth_header with
      | none => simp at hu
      | some v =>
        cases hbt : bearerToken v with
        | none =>
          simp only [hbt] at hu
          cases hu
        | some token =>
          simp only [hbt] at hu ⊢
          cases hv : verify_token token with
          | ok u2 =>
            simp only [hv, Option.some.injEq] at hu
            simp [hv, hu]
          | error e =>
            simp only [hv] at hu
            cases hu
  · rfl
  · unfold optional_auth_middleware
    cases bypass with
    | true => simp
    | false =>
      simp only [Bool.false_eq_true, if_false]
      cases auth_header with
      | none => simp
      | some v =>
        cases hbt : bearerToken v with
        | none =>
          simp only [hbt]
          simp [hbt]
          intro v1 token h1 h2
          rw [← h1, hbt] at h2
          exact Option.noConfusion h2
        | some token =>
          simp only [hbt]
          cases hv : verify_token token with
          | ok u2 => simp [hv, hbt]
          | error e =>
            simp [hv, hbt]
            intro v1 token1 h1 h2
            rw [← h1, hbt] at h2
            injection h2 with h3
            subst h3
            exact ⟨e, hv⟩

/-- C8 (amended) witness: bypass off, a verifier that rejects every token,
no authorization header, an API key present in one case and absent in the
other. -/
theorem C8_amended_optional_auth_witness :
    (∀ u, optional_auth_middleware false (fun _ => Except.error "bad")
        none (some "sk-abc") = some u →
      auth_middleware false (fun _ => Except.error "bad")
        (fun _ => Except.ok ⟨"key-1", "user-9", "ci key", ["read"]⟩)
        none (some "sk-abc") = Except.ok u) ∧
    (optional_auth_middleware false (fun _ => Except.error "bad")
        none (some "sk-abc") =
      optional_auth_middleware false (fun _ => Except.error "bad") none none) ∧
    (optional_auth_middleware false (fun _ => Except.error "bad")
        none (some "sk-abc") = none ↔
      (false = false ∧
        ∀ v token, (none : Option String) = some v → bearerToken v = some token →
          ∃ e, (fun _ => Except.error "bad" :
            String → Except String User) token = Except.error e)) :=
  C8_amended_optional_auth false (fun _ => Except.error "bad")
    (fun _ => Except.ok ⟨"key-1", "user-9", "ci key", ["read"]⟩)
    none (some "sk-abc") none

/-! ## Event producer (`src/kafka/producer.rs`)

The Kafka transport is an oracle `send : Nat → Except String Unit` mapping
the attempt index to the broker outcome; serialization of the event is the
successful path of `serde_json::to_vec`.  Instants are epoch milliseconds. -/

/-- `ProducerError`.  `MaxRetriesExceeded` exists in the source taxonomy but
is never constructed by it. -/
inductive ProducerError where
  | Kafka (msg : String)
  | Serialization (msg : String)
  | CircuitBreakerOpen
  | MaxRetriesExceeded
deriving DecidableEq, Repr

/-- `ProducerConfig`. -/
structure ProducerConfig where
  bootstrap_servers : String
  client_id : String
  retries : Nat
  retry_backoff_ms : Nat
  request_timeout_ms : Nat
deriving DecidableEq, Repr

namespace Producer

/-- The producer's own private circuit-breaker states. -/
inductive CircuitState where
  | Closed
  | Open
  | HalfOpen
deriving DecidableEq, Repr

/-- The producer's `CircuitBreaker`: state, failure counter with threshold,
recovery timer, and the instant of the last failure. -/
structure CircuitBreaker where
  state : Producer.CircuitState
  failures : Nat
  threshold : Nat
  recovery_timeout_ms : Nat
  last_failure : Option Nat
deriving DecidableEq, Repr

/-- `CircuitBreaker::new`. -/
def CircuitBreaker.new (threshold recovery_timeout_ms : Nat) : CircuitBreaker :=
  { state := Producer.CircuitState.Closed
    failures := 0
    threshold := threshold
    recovery_timeout_ms := recovery_timeout_ms
    last_failure := none }

/-- `record_success`: reset the counter and close. -/
def CircuitBreaker.record_success (cb : CircuitBreaker) : CircuitBreaker :=
  { cb with failures := 0, state := Producer.CircuitState.Closed }

/-- `record_failure`: bump the counter, stamp the failure instant, and open
once the counter reaches the threshold. -/
def CircuitBreaker.record_failure (cb : CircuitBreaker) (now : Nat) : CircuitBreaker :=
  let cb1 := { cb with failures := cb.failures + 1, last_failure := some now }
  if cb1.threshold ≤ cb1.failures then
    { cb1 with state := Producer.CircuitState.Open }
  else cb1

/-- `can_execute`: closed and half-open allow; open allows (moving to
half-open) only after the recovery timeout has elapsed since the last
failure. -/
def CircuitBreaker.can_execute (cb : CircuitBreaker) (now : Nat) :
    Bool × CircuitBreaker :=
  match cb.state with
  | Producer.CircuitState.Closed => (true, cb)
  | Producer.CircuitState.Open =>
    match cb.last_failure with
    | some last =>
      if cb.recovery_timeout_ms ≤ now - last then
        (true, { cb with state := Producer.CircuitState.HalfOpen })
      else (false, cb)
    | none => (false, cb)
  | Producer.CircuitState.HalfOpen => (true, cb)

end Producer

namespace EventProducer

/-- The `for attempt in 0..=retries` loop of `publish_with_retry`, with the
remaining iteration count as fuel (`fuel = retries + 1 - attempt`).  Returns
the result, the number of send attempts performed, and the list of backoff
sleeps in the order they happened; the terminal error is
`ProducerError::Kafka(last_error.unwrap_or("Unknown error"))`. -/
def publish_with_retry_go (cfg : ProducerConfig) (send : Nat → Except String Unit) :
    Nat → Nat → Option String → List Nat → Nat →
    Except ProducerError Unit × Nat × List Nat
  | _, 0, lastErr, sleeps, count =>
    (Except.error (ProducerError.Kafka (lastErr.getD "Unknown error")), count, sleeps)
  | attempt, fuel + 1, _, sleeps, count =>
    match send attempt with
    | Except.ok _ => (Except.ok (), count + 1, sleeps)
    | Except.error e =>
      if attempt < cfg.retries then
        publish_with_retry_go cfg send (attempt + 1) fuel (some e)
          (sleeps ++ [cfg.retry_backoff_ms * 2 ^ attempt]) (count + 1)
      else
        (Except.error (ProducerError.Kafka ((some e).getD "Unknown error")),
         count + 1, sleeps)

/-- `publish_with_retry`: the loop started at attempt 0. -/
def publish_with_retry (cfg : ProducerConfig) (send : Nat → Except String Unit) :
    Except ProducerError Unit × Nat × List Nat :=
  publish_with_retry_go cfg send 0 (cfg.retries + 1) none [] 0

/-- `publish`: consult the producer's own breaker (fail fast with
`CircuitBreakerOpen` and zero attempts when blocked), run the retry loop,
and record exactly one breaker success or failure from the outcome. -/
def publish (cfg : ProducerConfig) (cb : Producer.CircuitBreaker)
    (send : Nat → Except String Unit) (now : Nat) :
    Except ProducerError Unit × Producer.CircuitBreaker × Nat × List Nat :=
  let allowed := (cb.can_execute now).1
  let cb1 := (cb.can_execute now).2
  if allowed then
    match publish_with_retry cfg send with
    | (Except.ok _, n, sleeps) => (Except.ok (), cb1.record_success, n, sleeps)
    | (Except.error e, n, sleeps) => (Except.error e, cb1.record_failure now, n, sleeps)
  else (Except.error ProducerError.CircuitBreakerOpen, cb1, 0, [])

/-- `is_healthy`: the breaker is not currently `Open`. -/
def is_healthy (cb : Producer.CircuitBreaker) : Bool :=
  decide (cb.state ≠ Producer.CircuitState.Open)

end EventProducer

/-- C2: with `retries = 3`, every transport send failing, and the breaker
allowing the attempt, `publish` performs exactly 4 send attempts, sleeps
between consecutive attempts for `retry_backoff_ms * 2^attempt` — a strictly
increasing sequence when the base backoff is positive — and records exactly
one failure on its own breaker; but the error returned is
`ProducerError::Kafka` carrying the last transport message, not the
`MaxRetriesExceeded` variant the taxonomy declares (and whose message the
source logs at this point): that variant is never constructed. -/
theorem C2_publish_retry_exhaustion_eval (cfg : ProducerConfig)
    (cb : Producer.CircuitBreaker) (send : Nat → Except String Unit)
    (msg : Nat → String) (now : Nat)
    (hr : cfg.retries = 3) (hb : 0 < cfg.retry_backoff_ms)
    (hsend : ∀ i, send i = Except.error (msg i))
    (hallow : (cb.can_execute now).1 = true) :
    EventProducer.publish cfg cb send now =
      (Except.error (ProducerError.Kafka (msg 3)),
       ((cb.can_execute now).2).record_failure now, 4,
       [cfg.retry_backoff_ms * 2 ^ 0, cfg.retry_backoff_ms * 2 ^ 1,
        cfg.retry_backoff_ms * 2 ^ 2]) ∧
    cfg.retry_backoff_ms * 2 ^ 0 < cfg.retry_backoff_ms * 2 ^ 1 ∧
    cfg.retry_backoff_ms * 2 ^ 1 < cfg.retry_backoff_ms * 2 ^ 2 ∧
    (Except.error (ProducerError.Kafka (msg 3)) :
        Except ProducerError Unit) ≠
      Except.error ProducerError.MaxRetriesExceeded ∧
    (((cb.can_execute now).2).record_failure now).failures =
      ((cb.can_execute now).2).failures + 1 := by
  have hgo : EventProducer.publish_with_retry cfg send =
      (Except.error (ProducerError.Kafka (msg 3)), 4,
       [cfg.retry_backoff_ms * 2 ^ 0, cfg.retry_backoff_ms * 2 ^ 1,
        cfg.retry_backoff_ms * 2 ^ 2]) := by
    unfold EventProducer.publish_with_retry
    rw [hr]
    simp only [EventProducer.publish_with_retry_go, hsend, hr]
    norm_num
  refine ⟨?_, by
      have h1 : cfg.retry_backoff_ms * 1 < cfg.retry_backoff_ms * 2 := by omega
      simpa using h1, by
      have h2 : cfg.retry_backoff_ms * 2 < cfg.retry_backoff_ms * 4 := by omega
      simpa [pow_succ, pow_zero, Nat.mul_assoc] using h2, by simp, ?_⟩
  · simp only [EventProducer.publish, hallow, if_true, hgo]
  · simp [Producer.CircuitBreaker.record_failure]
    split <;> simp

/-- C2 witness: `retry_backoff_ms = 100`, a transport that always fails with
"down", the breaker fresh (Closed): 4 attempts, sleeps 100, 200, 400 ms,
a `Kafka "down"` error, and the breaker failure counter moving 0 → 1. -/
theorem C2_publish_retry_exhaustion_eval_witness :
    EventProducer.publish ⟨"localhost:9092", "api-backend", 3, 100, 30000⟩
      (Producer.CircuitBreaker.new 5 30000) (fun _ => Except.error "down") 0 =
      (Except.error (ProducerError.Kafka "down"),
       (Producer.CircuitBreaker.new 5 30000).record_failure 0, 4,
       [100 * 2 ^ 0, 100 * 2 ^ 1, 100 * 2 ^ 2]) ∧
    100 * 2 ^ 0 < 100 * 2 ^ 1 ∧
    100 * 2 ^ 1 < 100 * 2 ^ 2 ∧
    (Except.error (ProducerError.Kafka "down") : Except ProducerError Unit) ≠
      Except.error ProducerError.MaxRetriesExceeded ∧
    ((Producer.CircuitBreaker.new 5 30000).record_failure 0).failures =
      (Producer.CircuitBreaker.new 5 30000).failures + 1 := by
  have h := C2_publish_retry_exhaustion_eval
    ⟨"localhost:9092", "api-backend", 3, 100, 30000⟩
    (Producer.CircuitBreaker.new 5 30000) (fun _ => Except.error "down")
    (fun _ => "down") 0 rfl (by decide) (fun _ => rfl) (by decide)
  simpa using h
